import Mathlib

/-!
Verification of the PDFSmart-Assistant repository: a shallow embedding of the
OCR-engine orchestrator dispatch, the upload/analyze/fill/extract frontend
handlers (FillFormTab, ExtractTab), the API client request bodies, and the
documented retention and HTTP response-code behaviour, together with theorems
settling the specification claims about them.
-/

namespace PDFSmart

/-- User subscription tiers from the monetization table (Free, Pro, Business). -/
inductive UserTier
  | free
  | pro
  | business
deriving DecidableEq

open UserTier

/-- Engine selection logic of the OCR orchestrator, embedded from the
priority-ordered dispatch table in the architecture documentation
(src/unnamed/part_000, Engine Selection Logic, lines 140-152). -/
def selectEngine (userTier : UserTier) (googleVisionAvailable : Bool)
    (isHandwritten : Bool) (language : String) (needFastProcessing : Bool) : String :=
  if userTier = business ∧ googleVisionAvailable = true then "google_vision"
  else if isHandwritten = true then "easyocr"
  else if language = "thai" ∨ language = "chinese" ∨ language = "japanese" then "paddleocr"
  else if needFastProcessing = true then "rapidocr"
  else "tesseract"

/-- The five OCR services listed by the architecture documentation and the
dispatch table. -/
def ocrEngineNames : List String :=
  ["google_vision", "easyocr", "paddleocr", "rapidocr", "tesseract"]

/-- The documented feature list of the OCR Orchestrator service
(src/unnamed/part_000, Features, lines 153-158). -/
def ocrOrchestratorFeatures : List String :=
  ["Automatic engine selection", "Confidence scoring",
   "Word-level bounding boxes", "Multi-language support"]

/-- Modelled from the spec: the per-request engine invocations of the OCR
orchestrator. The orchestrator implementation (backend ocr_orchestrator.py) is
not under src/; per the spec it has no retry, fallback or concurrency logic of
its own, so one request performs exactly one selection step and invokes the
single selected engine. -/
def ocrInvocations (userTier : UserTier) (googleVisionAvailable : Bool)
    (isHandwritten : Bool) (language : String) (needFastProcessing : Bool) : List String :=
  [selectEngine userTier googleVisionAvailable isHandwritten language needFastProcessing]

/-! Frontend data model, embedded from src/frontend/src/types/index.ts and
src/frontend/src/lib/api.ts. -/

/-- A dropped file; only the name matters to the handlers. -/
structure FileT where
  name : String
deriving DecidableEq

/-- Executable model of JavaScript's String.endsWith over character data
(Lean's own String.endsWith does not reduce in the kernel). -/
def strEndsWith (s suff : String) : Bool :=
  decide (suff.data.length ≤ s.data.length) &&
  decide (s.data.drop (s.data.length - suff.data.length) = suff.data)

/-- Executable model of the JavaScript guard !text.trim(): true iff the text
trims to the empty string, i.e. every character is whitespace. -/
def strBlank (s : String) : Bool :=
  s.data.all Char.isWhitespace

/-- ProcessingState from src/frontend/src/types/index.ts lines 34-39. -/
structure ProcessingState where
  isUploading : Bool
  isAnalyzing : Bool
  isProcessing : Bool
  error : Option String
deriving DecidableEq

/-- DocumentUploadResponse from src/frontend/src/lib/api.ts lines 16-22. -/
structure DocumentUploadResponse where
  document_id : String
  filename : String
  file_size : Nat
  upload_timestamp : String
  expires_at : String
deriving DecidableEq

/-- FormField from src/frontend/src/lib/api.ts lines 24-30 (coordinates kept
abstract as four numbers). -/
structure FormField where
  field_name : String
  field_type : String
  page_number : Nat
deriving DecidableEq

/-- FormAnalysisResponse from src/frontend/src/lib/api.ts lines 32-38. -/
structure FormAnalysisResponse where
  document_id : String
  total_pages : Nat
  detected_fields : List FormField
  is_scanned : Bool
  ocr_engine_used : Option String
deriving DecidableEq

/-- FillFormResponse from src/frontend/src/lib/api.ts lines 40-46. -/
structure FillFormResponse where
  document_id : String
  filled_document_url : String
  fields_filled : Nat
  fields_total : Nat
  processing_time_ms : Nat
deriving DecidableEq

/-- ExtractionResponse from src/frontend/src/lib/api.ts lines 48-54. -/
structure ExtractionResponse where
  document_id : String
  extracted_content : String
  content_type : String
  download_url : Option String
  processing_time_ms : Nat
deriving DecidableEq

/-- The JSON body posted by extractContent (src/frontend/src/lib/api.ts lines
86-99): exactly the four fields document_id, extraction_query, output_format
and pages. -/
structure ExtractBody where
  document_id : String
  extraction_query : String
  output_format : String
  pages : Option (List Nat)
deriving DecidableEq

/-- extractContent from src/frontend/src/lib/api.ts lines 86-99. It accepts
exactly four parameters and builds the POST body for /api/extract/extract
from them. -/
def extractContent (documentId : String) (extractionQuery : String)
    (outputFormat : String) (pages : Option (List Nat)) : ExtractBody :=
  { document_id := documentId
    extraction_query := extractionQuery
    output_format := outputFormat
    pages := pages }

/-- The call site in ExtractTab.handleExtract passes a fifth argument
(the selected OCR engine); JavaScript discards arguments beyond a function's
declared parameters, so extractContent never receives it. -/
def callExtractContentJs (documentId : String) (extractionQuery : String)
    (outputFormat : String) (pages : Option (List Nat)) (_extraArg : String) :
    ExtractBody :=
  extractContent documentId extractionQuery outputFormat pages

/-- An axios error as observed by the catch blocks: response.data.detail (used
for the toast, when present) and message (stored into state.error). -/
structure ApiError where
  detail : Option String
  message : String
deriving DecidableEq

/-- Observable events of a handler run: API calls issued and toasts shown. -/
inductive Event
  | apiUpload (filename : String)
  | apiAnalyze (documentId : String)
  | apiFill (documentId : String) (instructions : String)
  | apiExtract (body : ExtractBody)
  | apiExtractTables (documentId : String)
  | apiExtractText (documentId : String)
  | toastSuccess (msg : String)
  | toastError (msg : String)
deriving DecidableEq

/-- The backend as seen by FillFormTab: results of the awaited API calls. -/
structure FillApi where
  uploadPDF : FileT → Except ApiError DocumentUploadResponse
  analyzePDF : String → Except ApiError FormAnalysisResponse
  fillForm : String → String → Except ApiError FillFormResponse

/-- The backend as seen by ExtractTab. -/
structure ExtractApi where
  uploadPDF : FileT → Except ApiError DocumentUploadResponse
  extractContent : ExtractBody → Except ApiError ExtractionResponse
  extractTables : String → Except ApiError String
  extractText : String → Except ApiError String

/-- Component state of FillFormTab (src/unnamed/part_002 lines 11-20). -/
structure FillTabState where
  document : Option (String × String)
  analysis : Option FormAnalysisResponse
  instructions : String
  result : Option FillFormResponse
  state : ProcessingState
deriving DecidableEq

/-- Initial FillFormTab state (all flags false, nothing loaded). -/
def fillInit : FillTabState :=
  { document := none, analysis := none, instructions := "", result := none,
    state := { isUploading := false, isAnalyzing := false, isProcessing := false,
               error := none } }

/-- Component state of ExtractTab (src/frontend/src/components/ExtractTab.tsx
lines 11-21). -/
structure ExtractTabState where
  document : Option (String × String)
  query : String
  outputFormat : String
  ocrEngine : String
  result : Option ExtractionResponse
  state : ProcessingState
deriving DecidableEq

/-- Initial ExtractTab state. -/
def extractInit : ExtractTabState :=
  { document := none, query := "", outputFormat := "text",
    ocrEngine := "tesseract", result := none,
    state := { isUploading := false, isAnalyzing := false, isProcessing := false,
               error := none } }

/-- Result of running one handler: the final component state, the events it
produced in order, and each ProcessingState value it set, in order. -/
structure HandlerRun (σ : Type) where
  state : σ
  events : List Event
  visited : List ProcessingState
deriving DecidableEq

/-- onDrop of FillFormTab (src/unnamed/part_002 lines 22-59): reject non-PDF
names, otherwise upload, then auto-analyze; the shared catch clears both the
isUploading and isAnalyzing flags and records error.message. -/
def fillOnDrop (api : FillApi) (acceptedFiles : List FileT) (s : FillTabState) :
    HandlerRun FillTabState :=
  match acceptedFiles with
  | [] => { state := s, events := [], visited := [] }
  | file :: _ =>
    if strEndsWith file.name ".pdf" then
      let ps1 : ProcessingState := { s.state with isUploading := true, error := none }
      match api.uploadPDF file with
      | .error e =>
        let psE : ProcessingState :=
          { ps1 with isUploading := false, isAnalyzing := false,
                     error := some e.message }
        { state := { s with state := psE },
          events := [Event.apiUpload file.name,
                     Event.toastError (e.detail.getD "Upload failed")],
          visited := [ps1, psE] }
      | .ok up =>
        let s2 := { s with document := some (up.document_id, up.filename),
                           state := ps1 }
        let ps2 : ProcessingState :=
          { ps1 with isUploading := false, isAnalyzing := true }
        match api.analyzePDF up.document_id with
        | .error e =>
          let psE : ProcessingState :=
            { ps2 with isUploading := false, isAnalyzing := false,
                       error := some e.message }
          { state := { s2 with state := psE },
            events := [Event.apiUpload file.name,
                       Event.toastSuccess "PDF uploaded successfully!",
                       Event.apiAnalyze up.document_id,
                       Event.toastError (e.detail.getD "Upload failed")],
            visited := [ps1, ps2, psE] }
        | .ok an =>
          let ps3 : ProcessingState := { ps2 with isAnalyzing := false }
          let fieldToast :=
            if an.detected_fields.length = 0 then
              Event.toastError "No form fields detected in this PDF"
            else Event.toastSuccess "Detected form fields"
          { state := { s2 with analysis := some an, state := ps3 },
            events := [Event.apiUpload file.name,
                       Event.toastSuccess "PDF uploaded successfully!",
                       Event.apiAnalyze up.document_id, fieldToast],
            visited := [ps1, ps2, ps3] }
    else
      { state := s, events := [Event.toastError "Please upload a PDF file"],
        visited := [] }

/-- handleFillForm of FillFormTab (src/unnamed/part_002 lines 67-85): guarded
only by a non-null document and non-blank instructions; analysis is not
consulted. -/
def fillHandleFillForm (api : FillApi) (s : FillTabState) :
    HandlerRun FillTabState :=
  match s.document with
  | none =>
    { state := s,
      events := [Event.toastError "Please provide filling instructions"],
      visited := [] }
  | some (docId, _) =>
    if strBlank s.instructions then
      { state := s,
        events := [Event.toastError "Please provide filling instructions"],
        visited := [] }
    else
      let ps1 : ProcessingState :=
        { s.state with isProcessing := true, error := none }
      match api.fillForm docId s.instructions with
      | .error e =>
        let psE : ProcessingState :=
          { ps1 with isProcessing := false, error := some e.message }
        { state := { s with state := psE },
          events := [Event.apiFill docId s.instructions,
                     Event.toastError (e.detail.getD "Form filling failed")],
          visited := [ps1, psE] }
      | .ok r =>
        let ps2 : ProcessingState := { ps1 with isProcessing := false }
        { state := { s with result := some r, state := ps2 },
          events := [Event.apiFill docId s.instructions,
                     Event.toastSuccess "Filled fields!"],
          visited := [ps1, ps2] }

/-- onDrop of ExtractTab (ExtractTab.tsx lines 23-47): reject non-PDF names,
otherwise upload; no auto-analysis in this tab. -/
def extractOnDrop (api : ExtractApi) (acceptedFiles : List FileT)
    (s : ExtractTabState) : HandlerRun ExtractTabState :=
  match acceptedFiles with
  | [] => { state := s, events := [], visited := [] }
  | file :: _ =>
    if strEndsWith file.name ".pdf" then
      let ps1 : ProcessingState := { s.state with isUploading := true, error := none }
      match api.uploadPDF file with
      | .error e =>
        let psE : ProcessingState :=
          { ps1 with isUploading := false, error := some e.message }
        { state := { s with state := psE },
          events := [Event.apiUpload file.name,
                     Event.toastError (e.detail.getD "Upload failed")],
          visited := [ps1, psE] }
      | .ok up =>
        let ps2 : ProcessingState := { ps1 with isUploading := false }
        let sDoc := { s with document := some (up.document_id, up.filename),
                             state := ps2 }
        { state := sDoc,
          events := [Event.apiUpload file.name,
                     Event.toastSuccess "PDF uploaded successfully!"],
          visited := [ps1, ps2] }
    else
      { state := s, events := [Event.toastError "Please upload a PDF file"],
        visited := [] }

/-- The request body built for the custom extraction of ExtractTab: the call
site (ExtractTab.tsx line 64) passes document.id, query, outputFormat,
undefined and ocrEngine; the fifth argument is discarded by extractContent. -/
def extractBodyOf (docId : String) (s : ExtractTabState) : ExtractBody :=
  callExtractContentJs docId s.query s.outputFormat none s.ocrEngine

/-- handleExtract of ExtractTab (ExtractTab.tsx lines 55-73). -/
def extractHandleExtract (api : ExtractApi) (s : ExtractTabState) :
    HandlerRun ExtractTabState :=
  match s.document with
  | none =>
    { state := s,
      events := [Event.toastError "Please provide an extraction query"],
      visited := [] }
  | some (docId, _) =>
    if strBlank s.query then
      { state := s,
        events := [Event.toastError "Please provide an extraction query"],
        visited := [] }
    else
      let ps1 : ProcessingState :=
        { s.state with isProcessing := true, error := none }
      match api.extractContent (extractBodyOf docId s) with
      | .error e =>
        let psE : ProcessingState :=
          { ps1 with isProcessing := false, error := some e.message }
        { state := { s with state := psE },
          events := [Event.apiExtract (extractBodyOf docId s),
                     Event.toastError (e.detail.getD "Extraction failed")],
          visited := [ps1, psE] }
      | .ok r =>
        let ps2 : ProcessingState := { ps1 with isProcessing := false }
        { state := { s with result := some r, state := ps2 },
          events := [Event.apiExtract (extractBodyOf docId s),
                     Event.toastSuccess "Content extracted successfully!"],
          visited := [ps1, ps2] }

/-- The two quick-extraction kinds of ExtractTab. -/
inductive QuickKind
  | tables
  | text
deriving DecidableEq

/-- handleQuickExtract of ExtractTab (ExtractTab.tsx lines 75-98). -/
def extractHandleQuickExtract (api : ExtractApi) (k : QuickKind)
    (s : ExtractTabState) : HandlerRun ExtractTabState :=
  match s.document with
  | none =>
    { state := s, events := [Event.toastError "Please upload a PDF first"],
      visited := [] }
  | some (docId, _) =>
    let ps1 : ProcessingState :=
      { s.state with isProcessing := true, error := none }
    let call : Except ApiError String :=
      match k with
      | .tables => api.extractTables docId
      | .text => api.extractText docId
    let ev : Event :=
      match k with
      | .tables => Event.apiExtractTables docId
      | .text => Event.apiExtractText docId
    match call with
    | .error e =>
      let psE : ProcessingState :=
        { ps1 with isProcessing := false, error := some e.message }
      { state := { s with state := psE },
        events := [ev, Event.toastError (e.detail.getD "Extraction failed")],
        visited := [ps1, psE] }
    | .ok content =>
      let ps2 : ProcessingState := { ps1 with isProcessing := false }
      { state := { s with
          result := some { document_id := docId, extracted_content := content,
                           content_type := "", download_url := none,
                           processing_time_ms := 0 },
          state := ps2 },
        events := [ev, Event.toastSuccess "Extracted successfully!"],
        visited := [ps1, ps2] }

/-- User actions on FillFormTab. -/
inductive FillAction
  | drop (files : List FileT)
  | fillClick
  | setInstructions (text : String)

/-- One user action on FillFormTab dispatched to its handler; editing the
instructions textarea only updates that field. -/
def fillStep (api : FillApi) (a : FillAction) (s : FillTabState) :
    HandlerRun FillTabState :=
  match a with
  | .drop files => fillOnDrop api files s
  | .fillClick => fillHandleFillForm api s
  | .setInstructions t =>
    { state := { s with instructions := t }, events := [], visited := [] }

/-- User actions on ExtractTab. -/
inductive ExtractAction
  | drop (files : List FileT)
  | extractClick
  | quick (k : QuickKind)
  | setQuery (text : String)
  | setFormat (fmt : String)
  | setEngine (e : String)

/-- One user action on ExtractTab dispatched to its handler. -/
def extractStep (api : ExtractApi) (a : ExtractAction) (s : ExtractTabState) :
    HandlerRun ExtractTabState :=
  match a with
  | .drop files => extractOnDrop api files s
  | .extractClick => extractHandleExtract api s
  | .quick k => extractHandleQuickExtract api k s
  | .setQuery t => { state := { s with query := t }, events := [], visited := [] }
  | .setFormat f => { state := { s with outputFormat := f }, events := [], visited := [] }
  | .setEngine e => { state := { s with ocrEngine := e }, events := [], visited := [] }

/-- Accumulate one FillFormTab action onto a session, appending its events and
visited ProcessingStates. -/
def fillAccum (api : FillApi) (r : HandlerRun FillTabState) (a : FillAction) :
    HandlerRun FillTabState :=
  let r2 := fillStep api a r.state
  { state := r2.state, events := r.events ++ r2.events,
    visited := r.visited ++ r2.visited }

/-- A whole FillFormTab session: a sequence of user actions starting from the
initial component state, accumulating events and visited ProcessingStates. -/
def fillRun (api : FillApi) (acts : List FillAction) : HandlerRun FillTabState :=
  acts.foldl (fillAccum api) { state := fillInit, events := [], visited := [] }

/-- Accumulate one ExtractTab action onto a session. -/
def extractAccum (api : ExtractApi) (r : HandlerRun ExtractTabState)
    (a : ExtractAction) : HandlerRun ExtractTabState :=
  let r2 := extractStep api a r.state
  { state := r2.state, events := r.events ++ r2.events,
    visited := r.visited ++ r2.visited }

/-- A whole ExtractTab session starting from the initial component state. -/
def extractRun (api : ExtractApi) (acts : List ExtractAction) :
    HandlerRun ExtractTabState :=
  acts.foldl (extractAccum api) { state := extractInit, events := [], visited := [] }

/-- Common response codes table from src/docs/API.md lines 13-20. -/
def commonResponseCodes : List (Nat × String) :=
  [(200, "Success"),
   (400, "Bad Request - Invalid input"),
   (404, "Not Found - Document doesn't exist"),
   (413, "Payload Too Large - File exceeds size limit"),
   (500, "Internal Server Error")]

/-- At most one of the three in-progress flags is set. -/
def atMostOneFlag (p : ProcessingState) : Prop :=
  p.isUploading.toNat + p.isAnalyzing.toNat + p.isProcessing.toNat ≤ 1

/-- All three in-progress flags are off. -/
def flagsClear (p : ProcessingState) : Prop :=
  p.isUploading = false ∧ p.isAnalyzing = false ∧ p.isProcessing = false

instance (p : ProcessingState) : Decidable (atMostOneFlag p) := by
  unfold atMostOneFlag; infer_instance

instance (p : ProcessingState) : Decidable (flagsClear p) := by
  unfold flagsClear; infer_instance

/-! Retention model. The backend upload handler and the housekeeping task are
not under src/, so they are modelled from the spec and the API documentation. -/

/-- The documented retention period, 24 hours, in milliseconds. -/
def retentionMs : Nat := 24 * 60 * 60 * 1000

/-- A stored upload with its timestamps in epoch milliseconds. -/
structure UploadRecord where
  document_id : String
  filename : String
  file_size : Nat
  upload_timestamp : Nat
  expires_at : Nat
deriving DecidableEq

/-- Modelled from the spec: the backend upload handler (not under src/) stamps
the response with expires_at equal to the upload timestamp plus 24 hours. -/
def mkUploadRecord (docId : String) (fname : String) (size : Nat) (now : Nat) :
    UploadRecord :=
  { document_id := docId, filename := fname, file_size := size,
    upload_timestamp := now, expires_at := now + retentionMs }

/-- Modelled from the spec: the cron-style housekeeping task (not under src/)
deletes a stored file once its expiry time has been reached. -/
def fileDeleted (r : UploadRecord) (now : Nat) : Bool :=
  decide (r.expires_at ≤ now)

/-- A calendar timestamp (UTC) as printed in the API documentation examples. -/
structure DateTimeUtc where
  year : Nat
  month : Nat
  day : Nat
  hour : Nat
  minute : Nat
deriving DecidableEq

/-- Days in a month of the proleptic Gregorian calendar. -/
def daysInMonth (y m : Nat) : Nat :=
  if m = 2 then (if y % 4 = 0 ∧ (y % 100 ≠ 0 ∨ y % 400 = 0) then 29 else 28)
  else if m = 4 ∨ m = 6 ∨ m = 9 ∨ m = 11 then 30
  else 31

/-- Adding exactly 24 hours to a calendar timestamp advances the date by one
day, rolling over months and years. -/
def add24Hours (d : DateTimeUtc) : DateTimeUtc :=
  if d.day < daysInMonth d.year d.month then { d with day := d.day + 1 }
  else if d.month < 12 then { d with day := 1, month := d.month + 1 }
  else { d with day := 1, month := 1, year := d.year + 1 }

/-! Concrete fixtures used by counterexamples and witnesses. -/

/-- A file whose name ends in .pdf. -/
def fileOk : FileT := { name := "doc.pdf" }

/-- A file whose name does not end in .pdf. -/
def fileBad : FileT := { name := "doc.txt" }

/-- A successful upload response, with the timestamps of the API.md example. -/
def upRespOk : DocumentUploadResponse :=
  { document_id := "d1", filename := "doc.pdf", file_size := 245678,
    upload_timestamp := "2024-01-15T10:30:00.000Z",
    expires_at := "2024-01-16T10:30:00.000Z" }

/-- A successful analysis response with one detected field. -/
def analysisOk : FormAnalysisResponse :=
  { document_id := "d1", total_pages := 5,
    detected_fields := [{ field_name := "Full Name", field_type := "text",
                          page_number := 1 }],
    is_scanned := false, ocr_engine_used := none }

/-- A successful fill response. -/
def fillRespOk : FillFormResponse :=
  { document_id := "d1", filled_document_url := "/api/download/d1_filled.pdf",
    fields_filled := 8, fields_total := 10, processing_time_ms := 1234 }

/-- A successful extraction response. -/
def extractRespOk : ExtractionResponse :=
  { document_id := "d1", extracted_content := "hello", content_type := "text",
    download_url := none, processing_time_ms := 2345 }

/-- An axios-style error object. -/
def errBoom : ApiError :=
  { detail := some "Document not found",
    message := "Request failed with status code 404" }

/-- A backend where every FillFormTab call succeeds. -/
def apiAllOk : FillApi :=
  { uploadPDF := fun _ => Except.ok upRespOk,
    analyzePDF := fun _ => Except.ok analysisOk,
    fillForm := fun _ _ => Except.ok fillRespOk }

/-- A backend where upload succeeds but analysis fails. -/
def apiAnalyzeFails : FillApi :=
  { uploadPDF := fun _ => Except.ok upRespOk,
    analyzePDF := fun _ => Except.error errBoom,
    fillForm := fun _ _ => Except.ok fillRespOk }

/-- A backend where upload fails. -/
def apiUploadFails : FillApi :=
  { uploadPDF := fun _ => Except.error errBoom,
    analyzePDF := fun _ => Except.ok analysisOk,
    fillForm := fun _ _ => Except.ok fillRespOk }

/-- A backend where form filling fails. -/
def apiFillFails : FillApi :=
  { uploadPDF := fun _ => Except.ok upRespOk,
    analyzePDF := fun _ => Except.ok analysisOk,
    fillForm := fun _ _ => Except.error errBoom }

/-- An extraction backend where every call succeeds. -/
def exApiOk : ExtractApi :=
  { uploadPDF := fun _ => Except.ok upRespOk,
    extractContent := fun _ => Except.ok extractRespOk,
    extractTables := fun _ => Except.ok "tables",
    extractText := fun _ => Except.ok "text" }

/-- An extraction backend where the custom extraction call fails. -/
def exApiExtractFails : ExtractApi :=
  { uploadPDF := fun _ => Except.ok upRespOk,
    extractContent := fun _ => Except.error errBoom,
    extractTables := fun _ => Except.ok "tables",
    extractText := fun _ => Except.ok "text" }

/-- ExtractTab state after a successful upload, with a query entered. -/
def extractReady : ExtractTabState :=
  { extractInit with document := some ("d1", "doc.pdf"),
                     query := "Extract the price table" }

/-- FillFormTab state after a successful upload, with instructions entered. -/
def fillReady : FillTabState :=
  { fillInit with document := some ("d1", "doc.pdf"),
                  instructions := "fill name as John" }

/-! Theorems settling the claims. -/

/-- C1: the OCR orchestrator selects the engine by the priority-ordered
dispatch rules, earlier rules taking strict priority over later ones. -/
theorem selectEngine_priority_rules (t : UserTier) (g h f : Bool) (l : String) :
    ((t = business ∧ g = true) → selectEngine t g h l f = "google_vision") ∧
    (¬(t = business ∧ g = true) → h = true → selectEngine t g h l f = "easyocr") ∧
    (¬(t = business ∧ g = true) → h = false →
      (l = "thai" ∨ l = "chinese" ∨ l = "japanese") →
      selectEngine t g h l f = "paddleocr") ∧
    (¬(t = business ∧ g = true) → h = false →
      ¬(l = "thai" ∨ l = "chinese" ∨ l = "japanese") → f = true →
      selectEngine t g h l f = "rapidocr") ∧
    (¬(t = business ∧ g = true) → h = false →
      ¬(l = "thai" ∨ l = "chinese" ∨ l = "japanese") → f = false →
      selectEngine t g h l f = "tesseract") := by
  unfold selectEngine
  refine ⟨?_, ?_, ?_, ?_, ?_⟩ <;> intros <;> split_ifs <;> simp_all

/-- Witness for C1: the rules evaluated at concrete inputs. -/
theorem selectEngine_priority_rules_witness :
    selectEngine business true false "english" false = "google_vision" ∧
    selectEngine free false true "english" false = "easyocr" ∧
    selectEngine free false false "thai" false = "paddleocr" ∧
    selectEngine free false false "english" true = "rapidocr" ∧
    selectEngine free false false "english" false = "tesseract" := by
  refine ⟨?_, ?_, ?_, ?_, ?_⟩
  · exact (selectEngine_priority_rules business true false false "english").1 (by decide)
  · exact (selectEngine_priority_rules free false true false "english").2.1
      (by decide) (by decide)
  · exact (selectEngine_priority_rules free false false false "thai").2.2.1
      (by decide) (by decide) (by decide)
  · exact (selectEngine_priority_rules free false false true "english").2.2.2.1
      (by decide) (by decide) (by decide) (by decide)
  · exact (selectEngine_priority_rules free false false false "english").2.2.2.2
      (by decide) (by decide) (by decide) (by decide)

/-- C2 counterexample: the selected engine is NOT independent of Google Vision
availability — at BUSINESS tier, non-handwritten English without the fast flag,
toggling availability changes the result from google_vision to tesseract. -/
theorem selectEngine_depends_on_availability :
    selectEngine business true false "english" false ≠
      selectEngine business false false "english" false := by decide

/-- C2 amended: selection is a function of five inputs (the four named ones
plus Google Vision availability); whenever the user tier is not BUSINESS the
selected engine is independent of Google Vision availability. -/
theorem selectEngine_availability_independence (t : UserTier) (g g' h f : Bool)
    (l : String) (ht : t ≠ business) :
    selectEngine t g h l f = selectEngine t g' h l f := by
  unfold selectEngine
  split_ifs <;> simp_all

/-- Witness for the amended C2 at a concrete non-BUSINESS input. -/
theorem selectEngine_availability_independence_witness :
    free ≠ business ∧
    selectEngine free true false "english" false =
      selectEngine free false false "english" false :=
  ⟨by decide, selectEngine_availability_independence free true false false false
    "english" (by decide)⟩

/-- C3: the selection function is total with a default: the result is always
one of the five engine names, and it is tesseract whenever no earlier rule
matches. -/
theorem selectEngine_total_with_default (t : UserTier) (g h f : Bool) (l : String) :
    selectEngine t g h l f ∈ ocrEngineNames ∧
    (¬(t = business ∧ g = true) → h = false →
      ¬(l = "thai" ∨ l = "chinese" ∨ l = "japanese") → f = false →
      selectEngine t g h l f = "tesseract") := by
  unfold selectEngine ocrEngineNames
  constructor
  · split_ifs <;> simp
  · intros
    split_ifs <;> simp_all

/-- Witness for C3 at a concrete input where no earlier rule matches. -/
theorem selectEngine_total_with_default_witness :
    selectEngine pro false false "english" false ∈ ocrEngineNames ∧
    selectEngine pro false false "english" false = "tesseract" :=
  ⟨(selectEngine_total_with_default pro false false false "english").1,
   (selectEngine_total_with_default pro false false false "english").2
     (by decide) (by decide) (by decide) (by decide)⟩

/-- C4 counterexample: the claim that the orchestrator never performs
confidence scoring is contradicted by the repository's own architecture
documentation, whose OCR Orchestrator feature list contains
"Confidence scoring". -/
theorem confidence_scoring_is_a_feature :
    "Confidence scoring" ∈ ocrOrchestratorFeatures := by decide

/-- C4 amended: the OCR orchestrator performs no retry, no fallback to a
second engine, and no concurrency coordination of its own — each request
causes exactly one engine-selection step and exactly one engine invocation,
with no recovery branch — but confidence scoring is among its documented
features. -/
theorem ocr_single_invocation_no_fallback (t : UserTier) (g h f : Bool) (l : String) :
    ocrInvocations t g h l f = [selectEngine t g h l f] ∧
    (ocrInvocations t g h l f).length = 1 ∧
    "Confidence scoring" ∈ ocrOrchestratorFeatures ∧
    "Retry" ∉ ocrOrchestratorFeatures ∧
    "Fallback" ∉ ocrOrchestratorFeatures := by
  refine ⟨rfl, rfl, by decide, by decide, by decide⟩

/-- C5: the upload response's expires_at equals the upload timestamp plus
exactly 24 hours, the stored file is deleted once that period has elapsed, and
the API.md example timestamps (2024-01-15T10:30Z to 2024-01-16T10:30Z) are
exactly 24 hours apart. -/
theorem upload_expires_after_24_hours (docId fname : String) (size now t : Nat) :
    (mkUploadRecord docId fname size now).expires_at =
      now + 24 * 60 * 60 * 1000 ∧
    (now + 24 * 60 * 60 * 1000 ≤ t →
      fileDeleted (mkUploadRecord docId fname size now) t = true) ∧
    add24Hours { year := 2024, month := 1, day := 15, hour := 10, minute := 30 } =
      { year := 2024, month := 1, day := 16, hour := 10, minute := 30 } := by
  refine ⟨rfl, ?_, by decide⟩
  intro ht
  simp only [fileDeleted, mkUploadRecord, retentionMs, decide_eq_true_eq]
  exact ht

/-- Witness for C5 at a concrete upload time and a probe one period later. -/
theorem upload_expires_after_24_hours_witness :
    (mkUploadRecord "d1" "doc.pdf" 245678 1000).expires_at =
      1000 + 24 * 60 * 60 * 1000 ∧
    fileDeleted (mkUploadRecord "d1" "doc.pdf" 245678 1000) 86401000 = true :=
  ⟨(upload_expires_after_24_hours "d1" "doc.pdf" 245678 1000 86401000).1,
   (upload_expires_after_24_hours "d1" "doc.pdf" 245678 1000 86401000).2.1
     (by decide)⟩

/-- C9: a dropped file whose name does not end in .pdf is rejected client-side
by both tabs: the only event is the error toast (so no API call whatsoever is
issued), and the component state, in particular document and analysis, is
returned unchanged. -/
theorem non_pdf_rejected_client_side (apiF : FillApi) (apiE : ExtractApi)
    (file : FileT) (restF restE : List FileT) (sF : FillTabState)
    (sE : ExtractTabState) (h : strEndsWith file.name ".pdf" = false) :
    fillOnDrop apiF (file :: restF) sF =
      { state := sF, events := [Event.toastError "Please upload a PDF file"],
        visited := [] } ∧
    extractOnDrop apiE (file :: restE) sE =
      { state := sE, events := [Event.toastError "Please upload a PDF file"],
        visited := [] } := by
  constructor
  · simp [fillOnDrop, h]
  · simp [extractOnDrop, h]

/-- Witness for C9: the concrete file doc.txt is rejected by both tabs. -/
theorem non_pdf_rejected_client_side_witness :
    strEndsWith fileBad.name ".pdf" = false ∧
    fillOnDrop apiAllOk [fileBad] fillInit =
      { state := fillInit,
        events := [Event.toastError "Please upload a PDF file"],
        visited := [] } ∧
    extractOnDrop exApiOk [fileBad] extractInit =
      { state := extractInit,
        events := [Event.toastError "Please upload a PDF file"],
        visited := [] } :=
  ⟨by decide,
   (non_pdf_rejected_client_side apiAllOk exApiOk fileBad [] [] fillInit
      extractInit (by decide)).1,
   (non_pdf_rejected_client_side apiAllOk exApiOk fileBad [] [] fillInit
      extractInit (by decide)).2⟩

/-- C8: the custom-extraction request body holds exactly the four fields
document_id, extraction_query, output_format and pages; the fifth argument at
the call site (the selected OCR engine) is discarded by extractContent, so the
body and the whole event trace of handleExtract are independent of the
engine choice. -/
theorem extract_body_excludes_ocr_engine (api : ExtractApi)
    (s : ExtractTabState) (docId fname : String)
    (hdoc : s.document = some (docId, fname)) (hq : strBlank s.query = false) :
    extractBodyOf docId s =
      { document_id := docId, extraction_query := s.query,
        output_format := s.outputFormat, pages := none } ∧
    Event.apiExtract (extractBodyOf docId s) ∈
      (extractHandleExtract api s).events ∧
    (∀ e1 e2 : String,
      extractBodyOf docId { s with ocrEngine := e1 } =
        extractBodyOf docId { s with ocrEngine := e2 }) ∧
    (∀ e1 e2 : String,
      (extractHandleExtract api { s with ocrEngine := e1 }).events =
        (extractHandleExtract api { s with ocrEngine := e2 }).events) := by
  refine ⟨rfl, ?_, fun e1 e2 => rfl, fun e1 e2 => ?_⟩
  · rcases hc : api.extractContent (extractBodyOf docId s) with e | r <;>
      simp [extractHandleExtract, hdoc, hq, hc]
  · obtain ⟨doc, q, fmt, eng, res, st⟩ := s
    simp only [ExtractTabState.document] at hdoc
    simp only [ExtractTabState.query] at hq
    subst hdoc
    by_cases hc : ∃ r, api.extractContent ⟨docId, q, fmt, none⟩ = Except.ok r
    · obtain ⟨r, hc⟩ := hc
      simp [extractHandleExtract, extractBodyOf, callExtractContentJs,
        extractContent, hq, hc]
    · rcases hc2 : api.extractContent ⟨docId, q, fmt, none⟩ with e | r
      · simp [extractHandleExtract, extractBodyOf, callExtractContentJs,
          extractContent, hq, hc2]
      · exact absurd ⟨r, hc2⟩ hc

/-- Witness for C8 at a concrete state with a document and a query. -/
theorem extract_body_excludes_ocr_engine_witness :
    strBlank extractReady.query = false ∧
    extractBodyOf "d1" extractReady =
      { document_id := "d1", extraction_query := "Extract the price table",
        output_format := "text", pages := none } :=
  ⟨by decide,
   (extract_body_excludes_ocr_engine exApiOk extractReady "d1" "doc.pdf" rfl
      (by decide)).1⟩

/-- C7: failures are surfaced as the documented HTTP error codes (400 invalid
input, 404 unknown document, 413 oversized file, 500 internal), and on an API
error each frontend handler issues the failing request exactly once (the event
trace is that one call followed by the error toast, so there is no retry),
records the error in state.error, and leaves every in-progress flag false. -/
theorem http_errors_surfaced_no_retry :
    ((400, "Bad Request - Invalid input") ∈ commonResponseCodes ∧
     (404, "Not Found - Document doesn't exist") ∈ commonResponseCodes ∧
     (413, "Payload Too Large - File exceeds size limit") ∈ commonResponseCodes ∧
     (500, "Internal Server Error") ∈ commonResponseCodes) ∧
    (∀ (api : FillApi) (file : FileT) (s : FillTabState) (e : ApiError),
      flagsClear s.state → strEndsWith file.name ".pdf" = true →
      api.uploadPDF file = Except.error e →
      (fillOnDrop api [file] s).events =
        [Event.apiUpload file.name,
         Event.toastError (e.detail.getD "Upload failed")] ∧
      (fillOnDrop api [file] s).state.state.error = some e.message ∧
      flagsClear (fillOnDrop api [file] s).state.state) ∧
    (∀ (api : FillApi) (file : FileT) (s : FillTabState) (e : ApiError)
        (up : DocumentUploadResponse),
      flagsClear s.state → strEndsWith file.name ".pdf" = true →
      api.uploadPDF file = Except.ok up →
      api.analyzePDF up.document_id = Except.error e →
      (fillOnDrop api [file] s).events =
        [Event.apiUpload file.name,
         Event.toastSuccess "PDF uploaded successfully!",
         Event.apiAnalyze up.document_id,
         Event.toastError (e.detail.getD "Upload failed")] ∧
      (fillOnDrop api [file] s).state.state.error = some e.message ∧
      flagsClear (fillOnDrop api [file] s).state.state) ∧
    (∀ (api : FillApi) (s : FillTabState) (d fn : String) (e : ApiError),
      flagsClear s.state → s.document = some (d, fn) →
      strBlank s.instructions = false →
      api.fillForm d s.instructions = Except.error e →
      (fillHandleFillForm api s).events =
        [Event.apiFill d s.instructions,
         Event.toastError (e.detail.getD "Form filling failed")] ∧
      (fillHandleFillForm api s).state.state.error = some e.message ∧
      flagsClear (fillHandleFillForm api s).state.state) ∧
    (∀ (api : ExtractApi) (s : ExtractTabState) (d fn : String) (e : ApiError),
      flagsClear s.state → s.document = some (d, fn) →
      strBlank s.query = false →
      api.extractContent (extractBodyOf d s) = Except.error e →
      (extractHandleExtract api s).events =
        [Event.apiExtract (extractBodyOf d s),
         Event.toastError (e.detail.getD "Extraction failed")] ∧
      (extractHandleExtract api s).state.state.error = some e.message ∧
      flagsClear (extractHandleExtract api s).state.state) := by
  refine ⟨⟨by decide, by decide, by decide, by decide⟩, ?_, ?_, ?_, ?_⟩
  · intro api file s e hclear hpdf hu
    obtain ⟨h1, h2, h3⟩ := hclear
    simp [fillOnDrop, hpdf, hu, flagsClear, h3]
  · intro api file s e up hclear hpdf hu ha
    obtain ⟨h1, h2, h3⟩ := hclear
    simp [fillOnDrop, hpdf, hu, ha, flagsClear, h3]
  · intro api s d fn e hclear hdoc hinstr hf
    obtain ⟨h1, h2, h3⟩ := hclear
    simp [fillHandleFillForm, hdoc, hinstr, hf, flagsClear, h1, h2]
  · intro api s d fn e hclear hdoc hq hc
    obtain ⟨h1, h2, h3⟩ := hclear
    simp [extractHandleExtract, hdoc, hq, hc, flagsClear, h1, h2]

/-- Witness for C7: a failing upload and a failing extraction at concrete
inputs record the error message and leave the flags clear. -/
theorem http_errors_surfaced_no_retry_witness :
    (400, "Bad Request - Invalid input") ∈ commonResponseCodes ∧
    (fillOnDrop apiUploadFails [fileOk] fillInit).state.state.error =
      some errBoom.message ∧
    flagsClear (fillOnDrop apiUploadFails [fileOk] fillInit).state.state ∧
    (extractHandleExtract exApiExtractFails extractReady).state.state.error =
      some errBoom.message ∧
    flagsClear (extractHandleExtract exApiExtractFails extractReady).state.state :=
  ⟨http_errors_surfaced_no_retry.1.1,
   (http_errors_surfaced_no_retry.2.1 apiUploadFails fileOk fillInit errBoom
      ⟨rfl, rfl, rfl⟩ (by decide) rfl).2.1,
   (http_errors_surfaced_no_retry.2.1 apiUploadFails fileOk fillInit errBoom
      ⟨rfl, rfl, rfl⟩ (by decide) rfl).2.2,
   (http_errors_surfaced_no_retry.2.2.2.2 exApiExtractFails extractReady "d1"
      "doc.pdf" errBoom ⟨rfl, rfl, rfl⟩ rfl (by decide) rfl).2.1,
   (http_errors_surfaced_no_retry.2.2.2.2 exApiExtractFails extractReady "d1"
      "doc.pdf" errBoom ⟨rfl, rfl, rfl⟩ rfl (by decide) rfl).2.2⟩

/-- C6 counterexample: with a backend whose analysis call fails, the
form-filling workflow still issues the fill request — upload succeeds, the
analysis errors (the component's analysis field stays none), yet clicking Fill
invokes the fill API, so form filling runs although analysis never
completed. -/
theorem fill_runs_without_completed_analysis :
    (fillRun apiAnalyzeFails
        [FillAction.drop [fileOk], FillAction.setInstructions "fill name as John",
         FillAction.fillClick]).state.analysis = none ∧
    Event.apiFill "d1" "fill name as John" ∈
      (fillRun apiAnalyzeFails
        [FillAction.drop [fileOk], FillAction.setInstructions "fill name as John",
         FillAction.fillClick]).events := by decide

/-- C6 amended: the workflow is sequential up to analysis completion — the
analysis call is issued only after the upload call has succeeded and returned
the document_id it uses (the upload event heads the trace), and the fill call
is issued only for a document_id returned by a successful upload; analysis
failure, however, does not prevent form filling. -/
theorem pipeline_order_after_upload (api : FillApi) (file : FileT)
    (s0 : FillTabState) (h0 : s0.document = none) :
    (∀ d, Event.apiAnalyze d ∈ (fillOnDrop api [file] s0).events →
      ∃ up, api.uploadPDF file = Except.ok up ∧ d = up.document_id ∧
        (fillOnDrop api [file] s0).events.head? =
          some (Event.apiUpload file.name)) ∧
    (∀ instr d i,
      Event.apiFill d i ∈
        (fillHandleFillForm api
          { (fillOnDrop api [file] s0).state with
              instructions := instr }).events →
      ∃ up, api.uploadPDF file = Except.ok up ∧ d = up.document_id) := by
  by_cases hpdf : strEndsWith file.name ".pdf"
  case neg =>
    constructor
    · intro d hd
      simp [fillOnDrop, hpdf] at hd
    · intro instr d i hd
      simp [fillOnDrop, fillHandleFillForm, hpdf, h0] at hd
  case pos =>
    rcases hu : api.uploadPDF file with e | up
    · constructor
      · intro d hd
        simp [fillOnDrop, hpdf, hu] at hd
      · intro instr d i hd
        simp [fillOnDrop, fillHandleFillForm, hpdf, hu, h0] at hd
    · rcases ha : api.analyzePDF up.document_id with e2 | an
      · constructor
        · intro d hd
          simp [fillOnDrop, hpdf, hu, ha] at hd
          subst hd
          exact ⟨up, rfl, rfl, by simp [fillOnDrop, hpdf, hu, ha]⟩
        · intro instr d i hd
          by_cases hb : strBlank instr
          · simp [fillOnDrop, fillHandleFillForm, hpdf, hu, ha, hb] at hd
          · rcases hf : api.fillForm up.document_id instr with e3 | r
            · simp [fillOnDrop, fillHandleFillForm, hpdf, hu, ha, hb, hf] at hd
              exact ⟨up, rfl, hd.1⟩
            · simp [fillOnDrop, fillHandleFillForm, hpdf, hu, ha, hb, hf] at hd
              exact ⟨up, rfl, hd.1⟩
      · by_cases hn : an.detected_fields.length = 0
        · constructor
          · intro d hd
            simp [fillOnDrop, hpdf, hu, ha, hn] at hd
            subst hd
            exact ⟨up, rfl, rfl, by simp [fillOnDrop, hpdf, hu, ha, hn]⟩
          · intro instr d i hd
            by_cases hb : strBlank instr
            · simp [fillOnDrop, fillHandleFillForm, hpdf, hu, ha, hn, hb] at hd
            · rcases hf : api.fillForm up.document_id instr with e3 | r
              · simp [fillOnDrop, fillHandleFillForm, hpdf, hu, ha, hn, hb,
                  hf] at hd
                exact ⟨up, rfl, hd.1⟩
              · simp [fillOnDrop, fillHandleFillForm, hpdf, hu, ha, hn, hb,
                  hf] at hd
                exact ⟨up, rfl, hd.1⟩
        · constructor
          · intro d hd
            simp [fillOnDrop, hpdf, hu, ha, hn] at hd
            subst hd
            exact ⟨up, rfl, rfl, by simp [fillOnDrop, hpdf, hu, ha, hn]⟩
          · intro instr d i hd
            by_cases hb : strBlank instr
            · simp [fillOnDrop, fillHandleFillForm, hpdf, hu, ha, hn, hb] at hd
            · rcases hf : api.fillForm up.document_id instr with e3 | r
              · simp [fillOnDrop, fillHandleFillForm, hpdf, hu, ha, hn, hb,
                  hf] at hd
                exact ⟨up, rfl, hd.1⟩
              · simp [fillOnDrop, fillHandleFillForm, hpdf, hu, ha, hn, hb,
                  hf] at hd
                exact ⟨up, rfl, hd.1⟩

/-- Witness for the amended C6: in the all-success run from the initial state,
the issued fill call's document id comes from the successful upload. -/
theorem pipeline_order_after_upload_witness :
    fillInit.document = none ∧
    (∃ up, apiAllOk.uploadPDF fileOk = Except.ok up ∧ "d1" = up.document_id) :=
  ⟨rfl,
   (pipeline_order_after_upload apiAllOk fileOk fillInit rfl).2
     "fill name as John" "d1" "fill name as John" (by decide)⟩

/-- Helper for C10: one FillFormTab action, started with all flags clear, only
ever sets at most one flag and terminates with all flags clear. -/
theorem fillStep_flags (api : FillApi) (a : FillAction) (s : FillTabState)
    (hc : flagsClear s.state) :
    (∀ p ∈ (fillStep api a s).visited, atMostOneFlag p) ∧
    flagsClear (fillStep api a s).state.state := by
  obtain ⟨h1, h2, h3⟩ := hc
  cases a with
  | drop files =>
    cases files with
    | nil =>
      exact ⟨by simp [fillStep, fillOnDrop], ⟨h1, h2, h3⟩⟩
    | cons file rest =>
      by_cases hpdf : strEndsWith file.name ".pdf"
      · rcases hu : api.uploadPDF file with e | up
        · constructor <;>
            simp [fillStep, fillOnDrop, hpdf, hu, atMostOneFlag, flagsClear,
              h1, h2, h3]
        · rcases ha : api.analyzePDF up.document_id with e2 | an
          · constructor <;>
              simp [fillStep, fillOnDrop, hpdf, hu, ha, atMostOneFlag,
                flagsClear, h1, h2, h3]
          · constructor <;>
              simp [fillStep, fillOnDrop, hpdf, hu, ha, atMostOneFlag,
                flagsClear, h1, h2, h3]
      · constructor <;>
          simp [fillStep, fillOnDrop, hpdf, flagsClear, h1, h2, h3]
  | fillClick =>
    rcases hd : s.document with _ | ⟨docId, fname⟩
    · constructor <;>
        simp [fillStep, fillHandleFillForm, hd, flagsClear, h1, h2, h3]
    · by_cases hb : strBlank s.instructions
      · constructor <;>
          simp [fillStep, fillHandleFillForm, hd, hb, flagsClear, h1, h2, h3]
      · rcases hf : api.fillForm docId s.instructions with e | r
        · constructor <;>
            simp [fillStep, fillHandleFillForm, hd, hb, hf, atMostOneFlag,
              flagsClear, h1, h2, h3]
        · constructor <;>
            simp [fillStep, fillHandleFillForm, hd, hb, hf, atMostOneFlag,
              flagsClear, h1, h2, h3]
  | setInstructions t =>
    exact ⟨by simp [fillStep], ⟨h1, h2, h3⟩⟩

/-- Helper for C10: one ExtractTab action, started with all flags clear, only
ever sets at most one flag and terminates with all flags clear. -/
theorem extractStep_flags (api : ExtractApi) (a : ExtractAction)
    (s : ExtractTabState) (hc : flagsClear s.state) :
    (∀ p ∈ (extractStep api a s).visited, atMostOneFlag p) ∧
    flagsClear (extractStep api a s).state.state := by
  obtain ⟨h1, h2, h3⟩ := hc
  cases a with
  | drop files =>
    cases files with
    | nil =>
      exact ⟨by simp [extractStep, extractOnDrop], ⟨h1, h2, h3⟩⟩
    | cons file rest =>
      by_cases hpdf : strEndsWith file.name ".pdf"
      · rcases hu : api.uploadPDF file with e | up
        · constructor <;>
            simp [extractStep, extractOnDrop, hpdf, hu, atMostOneFlag,
              flagsClear, h1, h2, h3]
        · constructor <;>
            simp [extractStep, extractOnDrop, hpdf, hu, atMostOneFlag,
              flagsClear, h1, h2, h3]
      · constructor <;>
          simp [extractStep, extractOnDrop, hpdf, flagsClear, h1, h2, h3]
  | extractClick =>
    rcases hd : s.document with _ | ⟨docId, fname⟩
    · constructor <;>
        simp [extractStep, extractHandleExtract, hd, flagsClear, h1, h2, h3]
    · by_cases hb : strBlank s.query
      · constructor <;>
          simp [extractStep, extractHandleExtract, hd, hb, flagsClear,
            h1, h2, h3]
      · rcases hx : api.extractContent (extractBodyOf docId s) with e | r
        · constructor <;>
            simp [extractStep, extractHandleExtract, hd, hb, hx, atMostOneFlag,
              flagsClear, h1, h2, h3]
        · constructor <;>
            simp [extractStep, extractHandleExtract, hd, hb, hx, atMostOneFlag,
              flagsClear, h1, h2, h3]
  | quick k =>
    rcases hd : s.document with _ | ⟨docId, fname⟩
    · constructor <;>
        simp [extractStep, extractHandleQuickExtract, hd, flagsClear,
          h1, h2, h3]
    · cases k with
      | tables =>
        rcases hx : api.extractTables docId with e | r
        · constructor <;>
            simp [extractStep, extractHandleQuickExtract, hd, hx,
              atMostOneFlag, flagsClear, h1, h2, h3]
        · constructor <;>
            simp [extractStep, extractHandleQuickExtract, hd, hx,
              atMostOneFlag, flagsClear, h1, h2, h3]
      | text =>
        rcases hx : api.extractText docId with e | r
        · constructor <;>
            simp [extractStep, extractHandleQuickExtract, hd, hx,
              atMostOneFlag, flagsClear, h1, h2, h3]
        · constructor <;>
            simp [extractStep, extractHandleQuickExtract, hd, hx,
              atMostOneFlag, flagsClear, h1, h2, h3]
  | setQuery t =>
    exact ⟨by simp [extractStep], ⟨h1, h2, h3⟩⟩
  | setFormat f =>
    exact ⟨by simp [extractStep], ⟨h1, h2, h3⟩⟩
  | setEngine e =>
    exact ⟨by simp [extractStep], ⟨h1, h2, h3⟩⟩

/-- Helper for C10: folding FillFormTab actions preserves the invariant. -/
theorem fillFold_flags (api : FillApi) (acts : List FillAction)
    (r : HandlerRun FillTabState) (hc : flagsClear r.state.state)
    (hv : ∀ p ∈ r.visited, atMostOneFlag p) :
    flagsClear ((acts.foldl (fillAccum api) r).state.state) ∧
    (∀ p ∈ (acts.foldl (fillAccum api) r).visited, atMostOneFlag p) := by
  induction acts generalizing r with
  | nil => exact ⟨hc, hv⟩
  | cons a rest ih =>
    apply ih
    · exact (fillStep_flags api a r.state hc).2
    · intro p hp
      simp only [fillAccum, List.mem_append] at hp
      rcases hp with hp | hp
      · exact hv p hp
      · exact (fillStep_flags api a r.state hc).1 p hp

/-- Helper for C10: folding ExtractTab actions preserves the invariant. -/
theorem extractFold_flags (api : ExtractApi) (acts : List ExtractAction)
    (r : HandlerRun ExtractTabState) (hc : flagsClear r.state.state)
    (hv : ∀ p ∈ r.visited, atMostOneFlag p) :
    flagsClear ((acts.foldl (extractAccum api) r).state.state) ∧
    (∀ p ∈ (acts.foldl (extractAccum api) r).visited, atMostOneFlag p) := by
  induction acts generalizing r with
  | nil => exact ⟨hc, hv⟩
  | cons a rest ih =>
    apply ih
    · exact (extractStep_flags api a r.state hc).2
    · intro p hp
      simp only [extractAccum, List.mem_append] at hp
      rcases hp with hp | hp
      · exact hv p hp
      · exact (extractStep_flags api a r.state hc).1 p hp

/-- C10: in both tabs, for any backend and any sequence of user actions from
the initial component state, every ProcessingState ever set has at most one of
isUploading, isAnalyzing, isProcessing true, and after the actions (each
handler having terminated) all three flags are false. -/
theorem processing_flags_invariant (apiF : FillApi) (apiE : ExtractApi)
    (actsF : List FillAction) (actsE : List ExtractAction) :
    ((∀ p ∈ (fillRun apiF actsF).visited, atMostOneFlag p) ∧
      flagsClear (fillRun apiF actsF).state.state) ∧
    ((∀ p ∈ (extractRun apiE actsE).visited, atMostOneFlag p) ∧
      flagsClear (extractRun apiE actsE).state.state) := by
  constructor
  · have h := fillFold_flags apiF actsF
      { state := fillInit, events := [], visited := [] }
      ⟨rfl, rfl, rfl⟩ (by simp)
    exact ⟨h.2, h.1⟩
  · have h := extractFold_flags apiE actsE
      { state := extractInit, events := [], visited := [] }
      ⟨rfl, rfl, rfl⟩ (by simp)
    exact ⟨h.2, h.1⟩

/-- Witness for C10 on concrete sessions in both tabs. -/
theorem processing_flags_invariant_witness :
    flagsClear (fillRun apiAllOk
      [FillAction.drop [fileOk], FillAction.setInstructions "x",
       FillAction.fillClick]).state.state ∧
    flagsClear (extractRun exApiOk
      [ExtractAction.drop [fileOk], ExtractAction.setQuery "q",
       ExtractAction.extractClick]).state.state :=
  ⟨(processing_flags_invariant apiAllOk exApiOk
      [FillAction.drop [fileOk], FillAction.setInstructions "x",
       FillAction.fillClick]
      [ExtractAction.drop [fileOk], ExtractAction.setQuery "q",
       ExtractAction.extractClick]).1.2,
   (processing_flags_invariant apiAllOk exApiOk
      [FillAction.drop [fileOk], FillAction.setInstructions "x",
       FillAction.fillClick]
      [ExtractAction.drop [fileOk], ExtractAction.setQuery "q",
       ExtractAction.extractClick]).2.2⟩

end PDFSmart
